import Mathlib

/-!
Verification development for the 9215 ammunition-readiness dashboard
(shortage / readiness computation engine of `app8.py`, with the variant
shortage loop of `app7.py` where the two revisions differ).

The engine is shallowly embedded: pandas rows become Lean structures,
the Python / pandas numeric and identifier coercions become explicit
total functions, and a raised Python exception is modelled as
`Option.none`.  Python `float(...)` is modelled in two layers: a small
exact-rational parser for plain sign / digits / decimal-point numerals
(`parseChars`, enough for the identifier-join scenario, where it is
exact), and a full model (`parseLit`, `roundDouble`, `cleanValPy`,
`pyFloatEval`, `pdToNumeric`) covering the whole CPython grammar —
exponents, digit-group underscores, inf/nan spellings, the CPython
whitespace tables — together with correctly-rounded IEEE binary64
conversion carried out in exact integer arithmetic, so overflow to
infinity, underflow, and 53-bit rounding of long numerals are all
represented.  The one known residual gap: CPython also accepts
non-ASCII Unicode decimal digits and exotic Unicode whitespace inside
`float(...)`; the model reads ASCII digits only.
-/

namespace Dashboard

/-- Space, tab, newline, carriage return: the whitespace that occurs
around the plain numerals of the identifier-join scenario.  The
complete CPython whitespace table is `isPySpace` below. -/
def isSpaceB (c : Char) : Bool :=
  c == ' ' || c == '\t' || c == '\n' || c == '\r'

/-- Strip leading and trailing `isSpaceB` whitespace from a character
list (`str.strip()` restricted to those four characters; `pyTrim`
below strips the full table). -/
def myTrim (cs : List Char) : List Char :=
  ((cs.dropWhile isSpaceB).reverse.dropWhile isSpaceB).reverse

/-- Value of a digit string, `none` if any character is not a digit.
The empty list yields `some 0`; emptiness is checked separately. -/
def digitsVal (cs : List Char) : Option Nat :=
  cs.foldl
    (fun acc c =>
      match acc with
      | none => none
      | some n => if c.isDigit then some (n * 10 + (c.toNat - 48)) else none)
    (some 0)

/-- Split a character list on the dot character, keeping empty parts
(so that the shapes of `"1."`, `".5"` and `"1.2.3"` are distinguishable). -/
def dotParts : List Char → List (List Char)
  | [] => [[]]
  | c :: rest =>
    let ps := dotParts rest
    if c = '.' then [] :: ps
    else
      match ps with
      | [] => [[c]]
      | p :: pr => (c :: p) :: pr

/-- Parse a trimmed character list as a plain sign / digits /
one-decimal-point numeral, keeping the exact value as a pair (signed
numerator, power-of-ten denominator): `"42.9"` becomes `(429, 10)`,
`"42"` becomes `(42, 1)`.  On such numerals this agrees with Python
`float(...)` up to binary rounding and is exact on identifier-sized
values; the full `float(...)` grammar (exponents, underscores, inf/nan
spellings) is `parseLit` below. -/
def parseChars (t : List Char) : Option (ℤ × ℕ) :=
  let sgnRest : ℤ × List Char :=
    match t with
    | '-' :: rest => (-1, rest)
    | '+' :: rest => (1, rest)
    | _ => (1, t)
  let sgn := sgnRest.1
  let u := sgnRest.2
  match dotParts u with
  | [a] =>
    if a = [] then none
    else (digitsVal a).map (fun n => (sgn * n, 1))
  | [a, b] =>
    if a = [] ∧ b = [] then none
    else
      match digitsVal a, digitsVal b with
      | some na, some nb => some (sgn * ((na : ℤ) * (10 : ℤ) ^ b.length + nb), (10 : ℕ) ^ b.length)
      | _, _ => none
  | _ => none

/-- Python `int(...)` truncation toward zero of a parsed numeral. -/
def truncVal (p : ℤ × ℕ) : ℤ :=
  Int.tdiv p.1 (p.2 : ℤ)

/-- Decimal digits of a natural number (empty for zero); fuelled
recursion so the kernel reduces it. -/
def natStrAux : Nat → Nat → List Char
  | 0, _ => []
  | fuel + 1, n =>
    if n = 0 then []
    else natStrAux fuel (n / 10) ++ [Char.ofNat (48 + n % 10)]

/-- Decimal rendering of a natural number, as Python `str` writes it. -/
def natStr (n : Nat) : String :=
  if n = 0 then "0" else String.mk (natStrAux (n + 1) n)

/-- Decimal rendering of an integer, as Python `str(int(...))` writes it. -/
def intStr (i : ℤ) : String :=
  if i < 0 then String.mk ('-' :: (natStr i.natAbs).data) else natStr i.natAbs

/-- `_clean_val` from `clean_id_column` in `app8.py` (lines 116-129),
restricted to the plain-numeral fragment of `parseChars`: NaN/None or
blank input becomes the empty string; a plain numeral is truncated to
an int and rendered back (`str(int(float(str(x))))`); anything else is
returned stripped.  Exact on the identifier-join inputs; the
full-grammar model of `_clean_val` — including float rounding and the
inf/nan behaviors — is `cleanValPy` below. -/
def cleanVal : Option String → String
  | none => ""
  | some s =>
    if myTrim s.data = [] then ""
    else
      match parseChars (myTrim s.data) with
      | some p => intStr (truncVal p)
      | none => String.mk (myTrim s.data)

/-- The complete CPython whitespace table: the characters that
`str.strip()` removes and `str.isspace()` accepts (tab through
carriage return, the four file/group/record/unit separators 28-31,
space, next-line 133, no-break space 160, and the Unicode space
category). -/
def isPySpace (c : Char) : Bool :=
  c.toNat == 9 || c.toNat == 10 || c.toNat == 11 || c.toNat == 12 || c.toNat == 13
    || c.toNat == 28 || c.toNat == 29 || c.toNat == 30 || c.toNat == 31 || c.toNat == 32
    || c.toNat == 133 || c.toNat == 160 || c.toNat == 5760
    || (decide (8192 ≤ c.toNat) && decide (c.toNat ≤ 8202))
    || c.toNat == 8232 || c.toNat == 8233 || c.toNat == 8239 || c.toNat == 8287
    || c.toNat == 12288

/-- The whitespace `float(...)` tolerates around a numeral: the
`str.strip()` table minus the separators 28-31, which `float` rejects
although `strip` removes them (verified against CPython). -/
def isFloatSpace (c : Char) : Bool :=
  isPySpace c && !(decide (28 ≤ c.toNat) && decide (c.toNat ≤ 31))

/-- Strip leading and trailing characters matching a class. -/
def trimBy (f : Char → Bool) (cs : List Char) : List Char :=
  ((cs.dropWhile f).reverse.dropWhile f).reverse

/-- Python `str.strip()` with no arguments. -/
def pyTrim (cs : List Char) : List Char :=
  trimBy isPySpace cs

/-- The whitespace stripping `float(...)` itself performs. -/
def floatTrim (cs : List Char) : List Char :=
  trimBy isFloatSpace cs

/-- Continuation of a digit group after one digit has been read: more
digits, or a single underscore that must be followed by a digit
(PEP 515); underscores are only legal when `uscore` is set. -/
def segCore (uscore : Bool) : List Char → Bool
  | [] => true
  | '_' :: c :: rest => uscore && c.isDigit && segCore uscore rest
  | ['_'] => false
  | c :: rest => c.isDigit && segCore uscore rest

/-- A possibly-empty digit group with legally-placed underscores: no
leading or trailing underscore, no doubled underscore. -/
def segOk (uscore : Bool) : List Char → Bool
  | [] => true
  | '_' :: _ => false
  | c :: rest => c.isDigit && segCore uscore rest

/-- Drop the underscores of a validated digit group. -/
def stripUnders (cs : List Char) : List Char :=
  cs.filter (fun c => c != '_')

/-- Value of a validated digit group. -/
def digitsToNat (cs : List Char) : ℕ :=
  cs.foldl (fun n c => n * 10 + (c.toNat - 48)) 0

/-- Split at the first occurrence of a character, `none` if absent. -/
def splitFirst (ch : Char) : List Char → Option (List Char × List Char)
  | [] => none
  | c :: rest =>
    if c = ch then some ([], rest)
    else
      match splitFirst ch rest with
      | none => none
      | some (a, b) => some (c :: a, b)

/-- Number of decimal digits of a natural number (1 for zero); fuelled
so the kernel reduces it. -/
def digitCount : ℕ → ℕ → ℕ
  | 0, _ => 1
  | fuel + 1, n => if n < 10 then 1 else digitCount fuel (n / 10) + 1

/-- Floor of the base-2 logarithm (0 for 0 and 1); fuelled so the
kernel reduces it. -/
def log2F : ℕ → ℕ → ℕ
  | 0, _ => 0
  | fuel + 1, n => if n ≤ 1 then 0 else log2F fuel (n / 2) + 1

/-- Whether `2 ^ e ≤ a / d`, by cross-multiplication. -/
def le2pow (e : ℤ) (a d : ℕ) : Bool :=
  if 0 ≤ e then decide (d * 2 ^ e.toNat ≤ a) else decide (d ≤ a * 2 ^ (-e).toNat)

/-- Floor of the base-2 logarithm of the positive rational `a / d`:
the bit-length candidate, corrected by one comparison. -/
def floorLog2Q (a d : ℕ) : ℤ :=
  let e0 : ℤ := (log2F a a : ℤ) - (log2F d d : ℤ)
  if le2pow e0 a d then e0 else e0 - 1

/-- Round `N / D` to the nearest integer, ties to even (`D` positive). -/
def roundHalfEven (N D : ℕ) : ℕ :=
  let q := N / D
  let r := N % D
  if 2 * r < D then q
  else if D < 2 * r then q + 1
  else if q % 2 = 0 then q else q + 1

/-- An IEEE binary64 conversion result: a finite double written as the
exact value `m * 2 ^ p`, or an infinity. -/
inductive DblVal where
  | fin (m p : ℤ)
  | pinf
  | ninf
deriving DecidableEq

/-- Correctly-rounded (nearest, ties to even) conversion of the exact
rational `n / d` to IEEE binary64, as CPython `float(...)` performs
it: find the binade, round the 53-bit significand (precision drops to
`2 ^ -1074` steps in the subnormal range), and overflow to infinity at
`2 ^ 1024`. -/
def roundDouble (n : ℤ) (d : ℕ) : DblVal :=
  if n = 0 then .fin 0 0
  else
    let a := n.natAbs
    let e : ℤ := floorLog2Q a d
    let p : ℤ := if e < -1022 then -1074 else e - 52
    let m : ℕ :=
      if 0 ≤ p then roundHalfEven a (d * 2 ^ p.toNat)
      else roundHalfEven (a * 2 ^ (-p).toNat) d
    if 1024 ≤ e ∨ (e = 1023 ∧ 2 ^ 53 ≤ m) then
      if n < 0 then .ninf else .pinf
    else .fin (if n < 0 then -(m : ℤ) else (m : ℤ)) p

/-- Python `int(...)` truncation toward zero of the finite double
`m * 2 ^ p`. -/
def truncFin (m p : ℤ) : ℤ :=
  if 0 ≤ p then m * ((2 ^ p.toNat : ℕ) : ℤ) else Int.tdiv m ((2 ^ (-p).toNat : ℕ) : ℤ)

/-- A parsed Python float literal before binary conversion: a nan or
infinity spelling, or a finite decimal kept as the exact pair (signed
numerator, power-of-ten denominator).  Decimal magnitudes beyond every
double (at least `10 ^ 309`) are classified as infinities here and
magnitudes below every double (under `10 ^ -323`) as zero, so the
pair stays of manageable size. -/
inductive PyLit where
  | nan
  | pinf
  | ninf
  | dec (n : ℤ) (d : ℕ)
deriving DecidableEq

/-- The full CPython `float(...)` string grammar on an already-trimmed
character list: optional sign; `inf`/`infinity`/`nan` spellings
case-insensitively; otherwise digits with optional decimal point and
optional `e`-exponent, each digit group allowing PEP 515 underscores
when `uscore` is set (`float` accepts them, the pandas parser does
not) and the nan spelling only when `nanOk` is set.  `none` models a
raised `ValueError`. -/
def parseLit (uscore nanOk : Bool) (cs : List Char) : Option PyLit :=
  let lower := cs.map Char.toLower
  let sgnRest : ℤ × List Char :=
    match lower with
    | '-' :: r => (-1, r)
    | '+' :: r => (1, r)
    | _ => (1, lower)
  let sgn := sgnRest.1
  let u := sgnRest.2
  if u = ['i', 'n', 'f'] ∨ u = ['i', 'n', 'f', 'i', 'n', 'i', 't', 'y'] then
    some (if sgn < 0 then .ninf else .pinf)
  else if nanOk ∧ u = ['n', 'a', 'n'] then some .nan
  else
    let mantExp : List Char × Option (List Char) :=
      match splitFirst 'e' u with
      | none => (u, none)
      | some (a, b) => (a, some b)
    let intFrac : List Char × List Char :=
      match splitFirst '.' mantExp.1 with
      | none => (mantExp.1, [])
      | some (a, b) => (a, b)
    if segOk uscore intFrac.1 && segOk uscore intFrac.2 then
      let A := stripUnders intFrac.1
      let B := stripUnders intFrac.2
      if A = [] ∧ B = [] then none
      else
        let M := digitsToNat (A ++ B)
        let k := B.length
        let expVal : Option ℤ :=
          match mantExp.2 with
          | none => some 0
          | some ex =>
            let exSgnRest : ℤ × List Char :=
              match ex with
              | '-' :: r => (-1, r)
              | '+' :: r => (1, r)
              | _ => (1, ex)
            if segOk uscore exSgnRest.2 then
              let E := stripUnders exSgnRest.2
              if E = [] then none else some (exSgnRest.1 * (digitsToNat E : ℤ))
            else none
        match expVal with
        | none => none
        | some ev =>
          let t : ℤ := ev - (k : ℤ)
          if M = 0 then some (.dec 0 1)
          else
            let L : ℤ := (digitCount M M : ℤ)
            if 310 ≤ L + t then some (if sgn < 0 then .ninf else .pinf)
            else if L + t ≤ -324 then some (.dec 0 1)
            else if 0 ≤ t then some (.dec (sgn * ((M * 10 ^ t.toNat : ℕ) : ℤ)) 1)
            else some (.dec (sgn * (M : ℤ)) (10 ^ (-t).toNat))
    else none

/-- Python `float(str(x))` on a string cell: strip the whitespace
`float` tolerates, then parse with underscores and nan allowed. -/
def pyParseFull (s : String) : Option PyLit :=
  parseLit true true (floatTrim s.data)

/-- The full-grammar model of `_clean_val` (`app8.py` lines 116-129):
blank or missing input gives the empty string; an unparseable string,
or a nan spelling (whose `int(...)` raises the `ValueError` the code
catches), comes back stripped; an inf spelling, or a numeral whose
float conversion overflows, makes `int(...)` raise an `OverflowError`
the code does not catch — modelled as `none`, the uncaught exception;
a numeral converting to a finite double is truncated toward zero and
rendered back. -/
def cleanValPy : Option String → Option String
  | none => some ""
  | some s =>
    if pyTrim s.data = [] then some ""
    else
      match pyParseFull s with
      | none => some (String.mk (pyTrim s.data))
      | some .nan => some (String.mk (pyTrim s.data))
      | some .pinf => none
      | some .ninf => none
      | some (.dec n d) =>
        match roundDouble n d with
        | .pinf => none
        | .ninf => none
        | .fin m p => some (intStr (truncFin m p))

/-- One row of the `vehicles` table (`app8.py` schema, lines 60-69). -/
structure Vehicle where
  simon : String
  pluga : String
  location : String
  vehicle_type : String
  status : String
deriving DecidableEq

/-- One row of the `ammo` table after `load_data` has coerced every
quantity column to a number (`app8.py` lines 71-79 and 148-155). -/
structure AmmoRow where
  vehicle_id : String
  hetz : ℚ
  barzel : ℚ
  regular_556 : ℚ
  mag : ℚ
  nafetiz60 : ℚ
  teura60 : ℚ
  meducut : ℚ
  calanit : ℚ
  halul : ℚ
  hatzav : ℚ
deriving DecidableEq

/-- The seven independently-standardized ammo types (the keys of
`STANDARDS_AMMO` in `app8.py` line 32). -/
inductive IndepAmmo where
  | hetz | barzel | regular_556 | mag | nafetiz60 | teura60 | meducut
deriving DecidableEq

/-- `STANDARDS_AMMO` from `app8.py` lines 32-35 (identical to
`standards` in `app7.py` lines 73-76). -/
def STANDARDS_AMMO : IndepAmmo → ℚ
  | .hetz => 3
  | .barzel => 10
  | .regular_556 => 990
  | .mag => 30
  | .nafetiz60 => 21
  | .teura60 => 9
  | .meducut => 12

/-- `TRIPLE_AMMO_STANDARD` from `app8.py` line 37: the pooled standard
for the calanit/halul/hatzav bundle. -/
def TRIPLE_AMMO_STANDARD : ℚ := 27

/-- Quantity held of an independent ammo type in one ammo row. -/
def AmmoRow.amt (r : AmmoRow) : IndepAmmo → ℚ
  | .hetz => r.hetz
  | .barzel => r.barzel
  | .regular_556 => r.regular_556
  | .mag => r.mag
  | .nafetiz60 => r.nafetiz60
  | .teura60 => r.teura60
  | .meducut => r.meducut

/-- `veh_df[veh_df[COL_SIMON] == sid]` (`app8.py` line 307): the
registry rows whose identifier matches the identifier of an ammo row. -/
def vmatch (vehs : List Vehicle) (sid : String) : List Vehicle :=
  vehs.filter (fun v => v.simon == sid)

/-- `row_pluga` fallback (`app8.py` line 310): the pluga of the first match, or
the `"N/A"` marker when the vehicle is absent from the registry. -/
def firstPluga : List Vehicle → String
  | [] => "N/A"
  | v :: _ => v.pluga

/-- `row_loc` fallback (`app8.py` line 311): the location of the first match, or
the `"N/A"` marker when the vehicle is absent from the registry. -/
def firstLoc : List Vehicle → String
  | [] => "N/A"
  | v :: _ => v.location

/-- One row of the numeric shortage table (`shrt` dict of the
`shortage_rows` loop, `app8.py` lines 301-340), with the current
holdings it was computed from. -/
structure ShortageRecord where
  pluga : String
  location : String
  z : String
  currInd : IndepAmmo → ℚ
  shortInd : IndepAmmo → ℚ
  calanitCur : ℚ
  halulCur : ℚ
  hatzavCur : ℚ
  calanitShort : ℚ
  halulShort : ℚ
  hatzavShort : ℚ
  combinedShort : ℚ

/-- One iteration of the `shortage_rows` loop (`app8.py` lines
305-340): resolve pluga/location from the registry with the `"N/A"`
fallback; per independent type `short = max(std - have, 0)`; pool the
three bundle members and give each member — and the combined
`"Calanit+Halul+Hatzav"` field — the group deficit
`max(TRIPLE_AMMO_STANDARD - triple_val, 0)`. -/
def mkShortageRecord (vehs : List Vehicle) (row : AmmoRow) : ShortageRecord :=
  let m := vmatch vehs row.vehicle_id
  let triple_val := row.calanit + row.halul + row.hatzav
  let triple_short := max (TRIPLE_AMMO_STANDARD - triple_val) 0
  { pluga := firstPluga m
    location := firstLoc m
    z := row.vehicle_id
    currInd := fun t => row.amt t
    shortInd := fun t => max (STANDARDS_AMMO t - row.amt t) 0
    calanitCur := row.calanit
    halulCur := row.halul
    hatzavCur := row.hatzav
    calanitShort := triple_short
    halulShort := triple_short
    hatzavShort := triple_short
    combinedShort := triple_short }

/-- The filter tuple of the Summary tab (`app8.py` lines 271-274);
`"All"` is the wildcard. -/
structure FilterSpec where
  pluga : String
  location : String
  z : String
deriving DecidableEq

/-- `veh_view` (`app8.py` lines 277-283): narrow the registry by each
non-wildcard constraint in turn. -/
def vehView (vehs : List Vehicle) (f : FilterSpec) : List Vehicle :=
  let s1 := if f.pluga = "All" then vehs else vehs.filter (fun v => v.pluga == f.pluga)
  let s2 := if f.location = "All" then s1 else s1.filter (fun v => v.location == f.location)
  if f.z = "All" then s2 else s2.filter (fun v => v.simon == f.z)

/-- `ammo_view` (`app8.py` lines 285-287): the ammo rows whose
vehicle identifier appears among the filtered vehicles. -/
def ammoView (vehs : List Vehicle) (ammo : List AmmoRow) (f : FilterSpec) : List AmmoRow :=
  let tank_ids := (vehView vehs f).map (fun v => v.simon)
  ammo.filter (fun r => tank_ids.contains r.vehicle_id)

/-- The whole shortage table: one record per filtered ammo row, with
pluga/location looked up in the full registry (`app8.py` line 305). -/
def shortageRows (vehs : List Vehicle) (view : List AmmoRow) : List ShortageRecord :=
  view.map (mkShortageRecord vehs)

/-- One line of the Quick-shortage-percentage summary (`summary_data`
entries, `app8.py` lines 409-429): total current, total standard,
pooled total shortage and shortage percent. -/
structure AggRecord where
  current : ℚ
  standard : ℚ
  shortage : ℚ
  pct : ℚ

/-- Aggregation for one independent ammo type (`app8.py` lines
409-417): `col_current = ammo_view[c].sum()`, `col_need = std *
n_tanks`, `col_short = max(col_need - col_current, 0)`,
`short_percent = 0 if col_need == 0 else col_short / col_need * 100`. -/
def aggIndep (view : List AmmoRow) (n : ℕ) (t : IndepAmmo) : AggRecord :=
  let col_current := (view.map (fun r => r.amt t)).sum
  let col_need := STANDARDS_AMMO t * (n : ℚ)
  let col_short := max (col_need - col_current) 0
  { current := col_current
    standard := col_need
    shortage := col_short
    pct := if col_need = 0 then 0 else col_short / col_need * 100 }

/-- Aggregation for the bundle (`app8.py` lines 419-429): the three
member currents are pooled against `TRIPLE_AMMO_STANDARD * n_tanks`. -/
def aggTriple (view : List AmmoRow) (n : ℕ) : AggRecord :=
  let cur := (view.map (fun r => r.calanit + r.halul + r.hatzav)).sum
  let need := TRIPLE_AMMO_STANDARD * (n : ℚ)
  let short := max (need - cur) 0
  { current := cur
    standard := need
    shortage := short
    pct := if need = 0 then 0 else short / need * 100 }

/-- The per-group column sum of the `app7.py` shortage summary
(`gtab`, lines 166-169): the SUM of per-vehicle clamped shortages,
as opposed to the pooled group formula of `aggIndep`. -/
def sumPerVehicleShort (recs : List ShortageRecord) (t : IndepAmmo) : ℚ :=
  (recs.map (fun r => r.shortInd t)).sum

/-- Result of a days-to-depletion projection: either a number of days
or the explicit unbounded sentinel rendered as the infinity glyph. -/
inductive DaysLeft where
  | unbounded : DaysLeft
  | num : ℚ → DaysLeft
deriving DecidableEq

/-- `days_left_dec` plus its sentinel rendering (`app8.py` lines
600-606): `current_total / use_rate` when the usage rate is positive,
else `float("inf")`, which the output row shows as the infinity
sentinel, never as a number. -/
def daysLeftDec (current_total use_rate : ℚ) : DaysLeft :=
  if 0 < use_rate then .num (current_total / use_rate) else .unbounded

/-- `days_left_maint` plus its sentinel rendering (`app8.py` lines
654-660): same projection pattern for maintenance hours. -/
def daysLeftMaint (hours_left daily_use : ℚ) : DaysLeft :=
  if 0 < daily_use then .num (hours_left / daily_use) else .unbounded

/-- `load_data` applying `clean_id_column` to the registry identifier
column (`app8.py` lines 139-140). -/
def cleanIdVehs (vs : List Vehicle) : List Vehicle :=
  vs.map (fun v => { v with simon := cleanVal (some v.simon) })

/-- `load_data` applying `clean_id_column` to the ammo identifier
column (`app8.py` lines 141-142). -/
def cleanIdAmmo (xs : List AmmoRow) : List AmmoRow :=
  xs.map (fun r => { r with vehicle_id := cleanVal (some r.vehicle_id) })

/-- An ammo row with the given identifier and all quantities zero;
concrete scenarios override single fields. -/
def zeroRow (id : String) : AmmoRow :=
  ⟨id, 0, 0, 0, 0, 0, 0, 0, 0, 0, 0⟩

/-- Scenario row for the bundle example: calanit 10, halul 5, hatzav 0. -/
def c2Row : AmmoRow :=
  { zeroRow "7" with calanit := 10, halul := 5, hatzav := 0 }

/-- Scenario registry for the pooling-difference example: two vehicles
in the same pluga and location. -/
def c4Vehs : List Vehicle :=
  [⟨"1", "A", "Base", "tank", "Working"⟩, ⟨"2", "A", "Base", "tank", "Working"⟩]

/-- Vehicle 1 is over-stocked in hetz (10 held against a standard of 3). -/
def c4Over : AmmoRow :=
  { zeroRow "1" with hetz := 10 }

/-- Vehicle 2 is under-stocked in hetz (0 held against a standard of 3). -/
def c4Under : AmmoRow :=
  zeroRow "2"

/-- Scenario ledger for the pooling-difference example. -/
def c4Ammo : List AmmoRow :=
  [c4Over, c4Under]

/-- The all-wildcards filter tuple. -/
def allFilter : FilterSpec :=
  ⟨"All", "All", "All"⟩

/-- Scenario registry with no vehicle in location North. -/
def c5Vehs : List Vehicle :=
  [⟨"1", "A", "South", "tank", "Working"⟩]

/-- The filter tuple (All, North, All) that matches no vehicle of
`c5Vehs`. -/
def c5Filter : FilterSpec :=
  ⟨"All", "North", "All"⟩

/-- Raw registry for the join example: the vehicle identifier is stored
as `"42"`. -/
def c6RawVehs : List Vehicle :=
  [⟨"42", "A", "North", "tank", "Working"⟩]

/-- Raw ledger for the join example: the identifier of the same vehicle is
stored as `"42.0"`. -/
def c6RawAmmo : List AmmoRow :=
  [{ zeroRow "42.0" with hetz := 1 }]

/-- Filter tuple selecting exactly tank `"42"`. -/
def c6Filter : FilterSpec :=
  ⟨"All", "All", "42"⟩

/-- Scenario registry for the missing-reference example. -/
def c9Vehs : List Vehicle :=
  [⟨"1", "A", "Base", "tank", "Working"⟩]

/-- Ammo row referencing a vehicle identifier absent from `c9Vehs`. -/
def c9Row : AmmoRow :=
  zeroRow "99"

end Dashboard

namespace Dashboard

/-- Claim C1: for every ammo row and every independent ammo type, the
ShortageRecord satisfies `shortage[t] = max(standard[t] - current[t],
0)`, and this shortage is never negative. -/
theorem c1_indep_shortage (vehs : List Vehicle) (row : AmmoRow) (t : IndepAmmo) :
    (mkShortageRecord vehs row).shortInd t
        = max (STANDARDS_AMMO t - (mkShortageRecord vehs row).currInd t) 0
      ∧ 0 ≤ (mkShortageRecord vehs row).shortInd t :=
  ⟨rfl, le_max_right _ _⟩

/-- Claim C2: the three bundle members each receive the identical
pooled shortage `max(bundle_standard - (calanit + halul + hatzav), 0)`,
the same value is exposed as the combined field, and on the concrete
vehicle holding calanit 10, halul 5, hatzav 0 all four fields are 12. -/
theorem c2_bundle_pooled :
    (∀ (vehs : List Vehicle) (row : AmmoRow),
        (mkShortageRecord vehs row).calanitShort
            = max (TRIPLE_AMMO_STANDARD
                - ((mkShortageRecord vehs row).calanitCur
                    + (mkShortageRecord vehs row).halulCur
                    + (mkShortageRecord vehs row).hatzavCur)) 0
          ∧ (mkShortageRecord vehs row).halulShort = (mkShortageRecord vehs row).calanitShort
          ∧ (mkShortageRecord vehs row).hatzavShort = (mkShortageRecord vehs row).calanitShort
          ∧ (mkShortageRecord vehs row).combinedShort = (mkShortageRecord vehs row).calanitShort)
    ∧ (mkShortageRecord [] c2Row).calanitShort = 12
    ∧ (mkShortageRecord [] c2Row).halulShort = 12
    ∧ (mkShortageRecord [] c2Row).hatzavShort = 12
    ∧ (mkShortageRecord [] c2Row).combinedShort = 12 := by
  have h12 : (mkShortageRecord [] c2Row).calanitShort = 12 := by
    simp only [mkShortageRecord, c2Row, zeroRow, TRIPLE_AMMO_STANDARD]
    norm_num [max_def]
  exact ⟨fun vehs row => ⟨rfl, rfl, rfl, rfl⟩, h12, h12, h12, h12⟩

/-- Claim C3: for every aggregated group and ammo type (independent or
bundle), `total_standard` is the per-vehicle standard times the
vehicle count of the group, `total_current` is the sum over the group,
`total_shortage = max(total_standard - total_current, 0)`, and the
shortage percentage is `total_shortage / total_standard * 100`, defined
as 0 when `total_standard` is 0. -/
theorem c3_agg_formulas (view : List AmmoRow) (n : ℕ) :
    (∀ t : IndepAmmo,
        (aggIndep view n t).standard = STANDARDS_AMMO t * (n : ℚ)
          ∧ (aggIndep view n t).current = (view.map (fun r => r.amt t)).sum
          ∧ (aggIndep view n t).shortage
              = max ((aggIndep view n t).standard - (aggIndep view n t).current) 0
          ∧ (aggIndep view n t).pct
              = if (aggIndep view n t).standard = 0 then 0
                else (aggIndep view n t).shortage / (aggIndep view n t).standard * 100)
    ∧ (aggTriple view n).standard = TRIPLE_AMMO_STANDARD * (n : ℚ)
    ∧ (aggTriple view n).current = (view.map (fun r => r.calanit + r.halul + r.hatzav)).sum
    ∧ (aggTriple view n).shortage
        = max ((aggTriple view n).standard - (aggTriple view n).current) 0
    ∧ (aggTriple view n).pct
        = if (aggTriple view n).standard = 0 then 0
          else (aggTriple view n).shortage / (aggTriple view n).standard * 100 :=
  ⟨fun _ => ⟨rfl, rfl, rfl, rfl⟩, rfl, rfl, rfl, rfl⟩

/-- Claim C4: on a group holding one vehicle over-stocked and one
under-stocked in hetz, the pooled group shortage differs strictly from
the sum of per-vehicle clamped shortages (0 versus 3). -/
theorem c4_pooling_differs :
    STANDARDS_AMMO IndepAmmo.hetz < c4Over.hetz
    ∧ c4Under.hetz < STANDARDS_AMMO IndepAmmo.hetz
    ∧ (aggIndep (ammoView c4Vehs c4Ammo allFilter) (vehView c4Vehs allFilter).length
          IndepAmmo.hetz).shortage
        ≠ sumPerVehicleShort (shortageRows c4Vehs (ammoView c4Vehs c4Ammo allFilter))
            IndepAmmo.hetz := by
  have hv : vehView c4Vehs allFilter = c4Vehs := by decide
  have ha : ammoView c4Vehs c4Ammo allFilter = c4Ammo := by decide
  refine ⟨by norm_num [STANDARDS_AMMO, c4Over, zeroRow], by norm_num [STANDARDS_AMMO, c4Under, zeroRow], ?_⟩
  rw [hv, ha]
  simp only [aggIndep, sumPerVehicleShort, shortageRows, mkShortageRecord, c4Ammo, c4Vehs,
    c4Over, c4Under, zeroRow, AmmoRow.amt, STANDARDS_AMMO, List.map_cons, List.map_nil,
    List.sum_cons, List.sum_nil, List.length_cons, List.length_nil]
  norm_num [max_def]

/-- Claim C5: whenever the filtered vehicle set is empty, the filtered
ammo set and the shortage table are empty, and the aggregate summary on
that group has total standard 0 and shortage percentage 0 for every
ammo type. -/
theorem c5_empty_filter (vehs : List Vehicle) (ammo : List AmmoRow) (f : FilterSpec)
    (h : vehView vehs f = []) :
    ammoView vehs ammo f = []
    ∧ shortageRows vehs (ammoView vehs ammo f) = []
    ∧ (∀ t : IndepAmmo,
        (aggIndep (ammoView vehs ammo f) (vehView vehs f).length t).standard = 0
          ∧ (aggIndep (ammoView vehs ammo f) (vehView vehs f).length t).pct = 0)
    ∧ (aggTriple (ammoView vehs ammo f) (vehView vehs f).length).standard = 0
    ∧ (aggTriple (ammoView vehs ammo f) (vehView vehs f).length).pct = 0 := by
  have ha : ammoView vehs ammo f = [] := by
    simp [ammoView, h]
  refine ⟨ha, by simp [shortageRows, ha], fun t => ⟨?_, ?_⟩, ?_, ?_⟩ <;>
    simp [aggIndep, aggTriple, h]

/-- Witness for Claim C5 at a concrete registry and filter with no
vehicle in location North. -/
theorem c5_empty_filter_witness :
    vehView c5Vehs c5Filter = []
    ∧ (aggIndep (ammoView c5Vehs [] c5Filter) (vehView c5Vehs c5Filter).length
          IndepAmmo.hetz).standard = 0
    ∧ (aggIndep (ammoView c5Vehs [] c5Filter) (vehView c5Vehs c5Filter).length
          IndepAmmo.hetz).pct = 0 :=
  ⟨by decide, ((c5_empty_filter c5Vehs [] c5Filter (by decide)).2.2.1 IndepAmmo.hetz).1,
    ((c5_empty_filter c5Vehs [] c5Filter (by decide)).2.2.1 IndepAmmo.hetz).2⟩

/-- Claim C6: identifier canonicalization sends `"123.0"` to `"123"`,
`"42.0"` and `"42"` canonicalize identically, and after `load_data`
cleaning both tables an ammo row stored as `"42.0"` joins the vehicle
stored as `"42"`: the tank-42 filter selects it and the shortage
record resolves the pluga of that vehicle. -/
theorem c6_id_canonical_join :
    cleanVal (some "123.0") = "123"
    ∧ cleanVal (some "42.0") = cleanVal (some "42")
    ∧ ammoView (cleanIdVehs c6RawVehs) (cleanIdAmmo c6RawAmmo) c6Filter = cleanIdAmmo c6RawAmmo
    ∧ (shortageRows (cleanIdVehs c6RawVehs) (cleanIdAmmo c6RawAmmo)).map (fun r => r.pluga)
        = ["A"] :=
  ⟨by decide, by decide, by decide, by decide⟩

/-- Claim C8: the depletion projection yields `current / rate` days
when the daily usage rate is positive and the explicit unbounded
sentinel when it is zero — never a numeric value in that case — for
both the ammo and the maintenance scenarios. -/
theorem c8_depletion (S r : ℚ) :
    (0 < r → daysLeftDec S r = DaysLeft.num (S / r))
    ∧ (r = 0 → daysLeftDec S r = DaysLeft.unbounded)
    ∧ (0 < r → daysLeftMaint S r = DaysLeft.num (S / r))
    ∧ (r = 0 → daysLeftMaint S r = DaysLeft.unbounded) := by
  refine ⟨fun h => if_pos h, fun h => ?_, fun h => if_pos h, fun h => ?_⟩ <;>
    simp [daysLeftDec, daysLeftMaint, h]

/-- Witness for Claim C8 at stock 100 with rates 4 and 0. -/
theorem c8_depletion_witness :
    daysLeftDec 100 4 = DaysLeft.num (100 / 4)
    ∧ daysLeftMaint 100 0 = DaysLeft.unbounded :=
  ⟨(c8_depletion 100 4).1 (by norm_num), (c8_depletion 100 0).2.2.2 rfl⟩

/-- Counterexample to Claim C9 as stated: for an ammo row whose
vehicle `"99"` is absent from the registry, the record is produced but
its unit and location are marked `"N/A"`, not `"unknown"`. -/
theorem c9_counterexample :
    vmatch c9Vehs c9Row.vehicle_id = []
    ∧ (mkShortageRecord c9Vehs c9Row).pluga ≠ "unknown"
    ∧ (mkShortageRecord c9Vehs c9Row).location ≠ "unknown" :=
  ⟨by decide, by decide, by decide⟩

/-- Claim C9 as amended: an ammo row whose vehicle identifier is
absent from the registry still yields a ShortageRecord — with unit and
location marked `"N/A"` — and record production is total: every row of
every batch produces exactly one record. -/
theorem c9_amended (vehs : List Vehicle) (row : AmmoRow)
    (h : vmatch vehs row.vehicle_id = []) :
    (mkShortageRecord vehs row).pluga = "N/A"
    ∧ (mkShortageRecord vehs row).location = "N/A"
    ∧ ∀ view : List AmmoRow, (shortageRows vehs view).length = view.length := by
  refine ⟨?_, ?_, fun view => by simp [shortageRows]⟩ <;>
    simp [mkShortageRecord, h, firstPluga, firstLoc]

/-- Witness for Claim C9 (amended) at a concrete registry missing
vehicle `"77"`. -/
theorem c9_amended_witness :
    (mkShortageRecord c9Vehs (zeroRow "77")).pluga = "N/A"
    ∧ (mkShortageRecord c9Vehs (zeroRow "77")).location = "N/A" :=
  ⟨(c9_amended c9Vehs (zeroRow "77") (by decide)).1,
    (c9_amended c9Vehs (zeroRow "77") (by decide)).2.1⟩

/-- Counterexample to Claim C10 as stated: the claim says every
float-parseable string canonicalizes to `str(int(float(x)))`, but
`"nan"` is parseable as a float and comes back unchanged (the
`ValueError` of `int(nan)` is caught), and `"inf"` is parseable as a
float yet produces no canonical identifier at all — `int(inf)` raises
an `OverflowError` the code does not catch. -/
theorem c10_counterexample :
    pyParseFull "nan" = some PyLit.nan
    ∧ cleanValPy (some "nan") = some "nan"
    ∧ pyParseFull "inf" = some PyLit.pinf
    ∧ cleanValPy (some "inf") = none :=
  ⟨by decide, by decide, by decide, by decide⟩

/-- Claim C10 as amended: every string parsing as a finite float
canonicalizes to `str(int(float(x)))` — the float value truncated
toward zero — so `"42.9"` becomes `"42"` and collides with `"42.0"`
and `"42"`; strings not parseable as a float come back stripped but
otherwise unchanged; blank or NaN inputs give the empty string; a nan
spelling parses but also comes back stripped (its `int(...)` raises a
`ValueError` the code catches); an inf spelling, or a numeral whose
float conversion overflows, crashes the cleaner with an uncaught
`OverflowError`. -/
theorem c10_amended :
    (∀ (s : String) (n : ℤ) (d : ℕ) (m p : ℤ),
        pyTrim s.data ≠ [] → pyParseFull s = some (PyLit.dec n d)
        → roundDouble n d = DblVal.fin m p
        → cleanValPy (some s) = some (intStr (truncFin m p)))
    ∧ cleanValPy (some "42.9") = some "42"
    ∧ (cleanValPy (some "42.0") = some "42" ∧ cleanValPy (some "42") = some "42"
        ∧ cleanValPy (some "42.9") = cleanValPy (some "42") ∧ ("42.0" : String) ≠ "42.9")
    ∧ (∀ s : String, pyTrim s.data ≠ [] → pyParseFull s = none
        → cleanValPy (some s) = some (String.mk (pyTrim s.data)))
    ∧ cleanValPy none = some ""
    ∧ (∀ s : String, pyTrim s.data = [] → cleanValPy (some s) = some "")
    ∧ (∀ s : String, pyTrim s.data ≠ [] → pyParseFull s = some PyLit.nan
        → cleanValPy (some s) = some (String.mk (pyTrim s.data)))
    ∧ (∀ s : String, pyTrim s.data ≠ []
        → (pyParseFull s = some PyLit.pinf ∨ pyParseFull s = some PyLit.ninf)
        → cleanValPy (some s) = none)
    ∧ (∀ (s : String) (n : ℤ) (d : ℕ),
        pyTrim s.data ≠ [] → pyParseFull s = some (PyLit.dec n d)
        → (roundDouble n d = DblVal.pinf ∨ roundDouble n d = DblVal.ninf)
        → cleanValPy (some s) = none) := by
  refine ⟨?_, by decide, ⟨by decide, by decide, by decide, by decide⟩, ?_, rfl, ?_, ?_, ?_, ?_⟩
  · intro s n d m p hb hp hr
    simp only [cleanValPy, if_neg hb, hp, hr]
  · intro s hb hp
    simp only [cleanValPy, if_neg hb, hp]
  · intro s hb
    simp only [cleanValPy, if_pos hb]
  · intro s hb hp
    simp only [cleanValPy, if_neg hb, hp]
  · intro s hb hp
    rcases hp with hp | hp <;> simp only [cleanValPy, if_neg hb, hp]
  · intro s n d hb hp hr
    rcases hr with hr | hr <;> simp only [cleanValPy, if_neg hb, hp, hr]

set_option maxRecDepth 8000 in
/-- Witness for Claim C10 (amended) at concrete finite, garbage,
blank, nan, inf and overflowing inputs. -/
theorem c10_amended_witness :
    cleanValPy (some "7.9") = some (intStr (truncFin 8894609264056730 (-50)))
    ∧ cleanValPy (some "N/A") = some (String.mk (pyTrim "N/A".data))
    ∧ cleanValPy (some " ") = some ""
    ∧ cleanValPy (some "-nan") = some (String.mk (pyTrim "-nan".data))
    ∧ cleanValPy (some "-inf") = none
    ∧ cleanValPy (some "1e400") = none
    ∧ cleanValPy (some "2e308") = none :=
  ⟨c10_amended.1 "7.9" 79 10 8894609264056730 (-50) (by decide) (by decide) (by decide),
    c10_amended.2.2.2.1 "N/A" (by decide) (by decide),
    c10_amended.2.2.2.2.2.1 " " (by decide),
    c10_amended.2.2.2.2.2.2.1 "-nan" (by decide) (by decide),
    c10_amended.2.2.2.2.2.2.2.1 "-inf" (by decide) (Or.inr (by decide)),
    c10_amended.2.2.2.2.2.2.2.1 "1e400" (by decide) (Or.inl (by decide)),
    c10_amended.2.2.2.2.2.2.2.2 "2e308" (2 * 10 ^ 308) 1 (by decide) (by decide)
      (Or.inl (by decide))⟩

end Dashboard
